import Mathlib

/-!
Shallow embedding of the round-1 logic of a FROST/CMP threshold-ECDSA
repository. The single source file holds two Go packages: package sign
(signing round 1: a message-hash state whose Finalize is an unimplemented
panic) and package refresh (DKG/refresh round 1: Schnorr randomness,
Paillier/Pedersen generation, secret-sharing polynomial sampling, rho
sampling, commitment, and a single broadcast message). Effectful calls
(curve.NewScalarRandom, paillier.NewSecretKey, GeneratePedersen, rand.Read,
hash.Commit) are threaded through an explicit environment; state mutation of
the round receiver becomes explicit state passing.
-/

namespace MPS

/-- One byte, as in a Go byte. -/
abbrev Byte := Fin 256

/-- A party identifier (party.ID): a string in the source, embedded here as
its byte encoding, which is what both map keys and Scalar.SetBytes consume. -/
abbrev PartyID := List Byte

/-- Order of the elliptic-curve group used by pkg/math/curve (secp256k1 group
order): the modulus of the scalar field. -/
def scalarOrder : Nat :=
  115792089237316195423570985008687907852837564279074904382605163141518161494337

/-- A curve scalar: an element of the scalar field modulo the group order. -/
abbrev Scalar := ZMod scalarOrder

/-- curve.NewScalar() returns the zero scalar. -/
def NewScalar : Scalar := 0

/-- curve.Scalar.SetBytes: deterministic mapping of a byte string into the
scalar field (big-endian interpretation reduced mod the group order); the
receiver is overwritten, so its previous value is ignored. -/
def Scalar.SetBytes (_ : Scalar) (bs : List Byte) : Scalar :=
  ((bs.foldl (fun a b => a * 256 + b.val) 0 : Nat) : Scalar)

/-- A point of the subgroup generated by the base point G. The subgroup is
cyclic of order scalarOrder, so a point is faithfully represented by its
discrete logarithm with respect to G; the concrete group arithmetic is an
out-of-scope library primitive consumed as already correct. -/
structure Point where
  log : Scalar
  deriving DecidableEq

/-- curve.NewIdentityPoint(). -/
def NewIdentityPoint : Point := { log := 0 }

/-- p.ScalarBaseMult(s) sets the receiver to s·G and returns it (the previous
receiver value is discarded, as in the source API). -/
def Point.ScalarBaseMult (_ : Point) (s : Scalar) : Point := { log := s }

/-- A secret-sharing polynomial f(X): ordered coefficients, index l holding
the degree-l coefficient. -/
structure Polynomial where
  coefficients : List Scalar
  deriving DecidableEq

/-- Modelled from the spec: polynomial.NewPolynomial is not under src/.
Per spec 4.3, samplePolynomial draws t uniformly random scalar coefficients
for degrees 1..t and fixes the degree-0 coefficient to the caller-supplied
constant. Its randomness is the scalar tape starting at index k. -/
def NewPolynomial (tape : Nat → Scalar) (k t : Nat) (constant : Scalar) : Polynomial :=
  { coefficients := constant :: (List.range t).map (fun j => tape (k + j)) }

/-- Modelled from the spec: polynomial evaluation over the scalar field
(spec 4.3, Horner's method). -/
def Polynomial.Evaluate (p : Polynomial) (x : Scalar) : Scalar :=
  p.coefficients.foldr (fun c acc => c + x * acc) 0

/-- The public Feldman commitment F(X) = f(X)·G: one curve point per
coefficient. -/
structure PolynomialExponent where
  coefficients : List Point
  deriving DecidableEq

/-- Modelled from the spec: polynomial.NewPolynomialExponent maps every
coefficient to its scalar-multiple of the base point (spec 4.3). -/
def NewPolynomialExponent (p : Polynomial) : PolynomialExponent :=
  { coefficients := p.coefficients.map (fun c => Point.ScalarBaseMult NewIdentityPoint c) }

/-- Modelled from the spec: a Paillier-like secret key, i.e. the secret
factorization sampled by paillier.NewSecretKey (spec 4.4). -/
structure PaillierSecretKey where
  p : Nat
  q : Nat
  deriving DecidableEq

/-- Modelled from the spec: the public half of the keypair. -/
structure PaillierPublicKey where
  n : Nat
  deriving DecidableEq

/-- sk.PublicKey(): the public modulus derived from the factorization. -/
def PaillierSecretKey.PublicKey (sk : PaillierSecretKey) : PaillierPublicKey :=
  { n := sk.p * sk.q }

/-- Pedersen commitment parameters (N, S, T); the private exponent lambda is
produced alongside them by GeneratePedersen. -/
structure Pedersen where
  N : Nat
  S : Nat
  T : Nat
  deriving DecidableEq

/-- params.SecBytes: byte length of the security parameter (256-bit level). -/
def SecBytes : Nat := 32

/-- pb.MessageType: the type tags relevant to round 1. -/
inductive MessageType where
  | TypeInvalid
  | TypeRefresh1
  deriving DecidableEq

/-- pb.Broadcast: the broadcast-reliability classes of the message schema. -/
inductive Broadcast where
  | Reliable
  | BestEffort
  deriving DecidableEq

/-- pb.Refresh1: the round-1 DKG/refresh payload. Modelled from the spec
(the pb package is not under src/): per spec 6 this variant carries only the
fixed-size commitment digest, matching the literal built by the source. -/
structure Refresh1 where
  Hash : List Byte
  deriving DecidableEq

/-- pb.Message restricted to the logical schema of spec 6: type tag, sender
identity, broadcast-reliability class, and the round-1 refresh payload
variant (absent in messages of other rounds). -/
structure Message where
  type : MessageType
  From : PartyID
  broadcast : Broadcast
  refresh1 : Option Refresh1
  deriving DecidableEq

/-- The secret store inside the session state: the field written by the
refresh round 1 (round.S.Secret.Paillier). -/
structure Secret where
  Paillier : Option PaillierSecretKey
  deriving DecidableEq

/-- The session context round.S, restricted to the fields round 1 references:
the threshold and the secret store. -/
structure Session where
  Threshold : Nat
  Secret : Secret
  deriving DecidableEq

/-- The session-bound commitment helper round.H: Commit binds the committing
party to the tuple (rho, exponent polynomial, Schnorr points, Pedersen
parameters), returning (commitment hash, decommitment) or an error. It draws
internal randomness for the decommitment, so it lives in the effect
environment. -/
structure HashHelper where
  Commit : PartyID → List Byte → PolynomialExponent → List Point → Pedersen →
    Except String (List Byte × List Byte)

/-- The effect environment of one GenerateMessages call: scalarTape k is the
value returned by the (k+1)-th curve.NewScalarRandom() call; paillierSK is
the freshly sampled Paillier secret key; generatePedersen is
sk.GeneratePedersen(); rhoRead k is the outcome of the (k+1)-th
crypto/rand.Read call made for rho; H is the commitment helper. -/
structure Env where
  scalarTape : Nat → Scalar
  paillierSK : PaillierSecretKey
  generatePedersen : PaillierSecretKey → Pedersen × Int
  rhoRead : Nat → Except String (List Byte)
  H : HashHelper

/-- Outcome of a Go function that may panic: either a panic carrying its
message, or a normal return. -/
inductive PanicOr (α : Type) where
  | panicked (msg : String)
  | returned (a : α)
  deriving DecidableEq

namespace Sign

/-- message.Content for the sign package: the dummy First variant expected by
the first round, or arbitrary (possibly malformed) bytes. -/
inductive Content where
  | First
  | Raw (bs : List Byte)
  deriving DecidableEq

/-- sign.round1: the signing round-1 state. M is the hash of the message
being signed; the embedded round.Helper carries no field this round's
methods read. -/
structure round1 where
  M : List Byte
  deriving DecidableEq

/-- ProcessMessage (sign round 1, source line 30): returns nil for every
sender and payload (nil payload included) and leaves the state unchanged. -/
def round1.ProcessMessage (r : round1) (_ : PartyID) (_ : Option Content) :
    Option String × round1 :=
  (none, r)

/-- Finalize (sign round 1, source lines 33-35): the body is
panic("unimplemented"). No message is written to the outbound channel and no
next round is produced. -/
def round1.Finalize (_ : round1) : PanicOr (List Message × Unit) :=
  PanicOr.panicked "unimplemented"

/-- MessageContent (sign round 1, source lines 40-42): the dummy First type. -/
def round1.MessageContent (_ : round1) : Content := Content.First

end Sign

namespace Refresh

/-- localParty: the per-party accumulator fields written by round 1. Fields
holding Go pointers or slices that start nil are embedded as Option or as an
empty list. -/
structure localParty where
  A : List Point
  Paillier : Option PaillierPublicKey
  Pedersen : Option Pedersen
  rho : List Byte
  polyExp : Option PolynomialExponent
  shareReceived : Option Scalar
  commitment : List Byte
  deriving DecidableEq

/-- refresh.round1: the DKG/refresh round-1 state. The fields of the embedded
BaseRound that this round references (the session S and the party's own
SelfID) are inlined. -/
structure round1 where
  S : Session
  SelfID : PartyID
  keygen : Bool
  thisParty : localParty
  parties : List (PartyID × localParty)
  decommitment : List Byte
  lambda : Option Int
  poly : Option Polynomial
  schnorrRand : List Scalar
  deriving DecidableEq

/-- ProcessMessage (refresh round 1, source lines 84-87): in the first round
no messages are expected; returns nil and leaves the state unchanged. -/
def round1.ProcessMessage (r : round1) (_ : Option Message) : Option String × round1 :=
  (none, r)

/-- The t+1 Schnorr randomness scalars (source lines 108-110): the successive
tape draws 0..t. -/
def round1.schnorrRandOf (env : Env) (r : round1) : List Scalar :=
  (List.range (r.S.Threshold + 1)).map env.scalarTape

/-- The t+1 Schnorr commitments (source line 111): one base-point multiple
per sampled scalar, in the same order. -/
def round1.AOf (env : Env) (r : round1) : List Point :=
  (round1.schnorrRandOf env r).map (fun a => Point.ScalarBaseMult NewIdentityPoint a)

/-- The polynomial constant term (source lines 123-126): a fresh draw (the
first tape index not consumed by the Schnorr sampling) under keygen, the
zero scalar under refresh. -/
def round1.constantOf (env : Env) (r : round1) : Scalar :=
  if r.keygen then env.scalarTape (r.S.Threshold + 1) else NewScalar

/-- The sampled polynomial (source line 127): degree t with the mode-chosen
constant term; coefficients for degrees 1..t are the tape draws following
the constant term. -/
def round1.polyOf (env : Env) (r : round1) : Polynomial :=
  NewPolynomial env.scalarTape
    (if r.keygen then r.S.Threshold + 2 else r.S.Threshold + 1)
    r.S.Threshold (round1.constantOf env r)

/-- The exponent polynomial (source line 132). -/
def round1.polyExpOf (env : Env) (r : round1) : PolynomialExponent :=
  NewPolynomialExponent (round1.polyOf env r)

/-- The round-1 state after every update preceding the rho read (source lines
106-135): Schnorr scalars and commitments, Paillier material (including the
write into round.S.Secret.Paillier on line 118), Pedersen parameters and
lambda, polynomial, self-share, exponent polynomial, and the freshly
allocated zero rho buffer. -/
def round1.preState (env : Env) (r : round1) : round1 :=
  { r with
    schnorrRand := round1.schnorrRandOf env r
    lambda := some (env.generatePedersen env.paillierSK).2
    poly := some (round1.polyOf env r)
    S := { r.S with Secret := { r.S.Secret with Paillier := some env.paillierSK } }
    thisParty :=
      { r.thisParty with
        A := round1.AOf env r
        Pedersen := some (env.generatePedersen env.paillierSK).1
        Paillier := some (PaillierSecretKey.PublicKey env.paillierSK)
        polyExp := some (round1.polyExpOf env r)
        shareReceived :=
          some ((round1.polyOf env r).Evaluate (Scalar.SetBytes NewScalar r.SelfID))
        rho := List.replicate SecBytes 0 } }

/-- The state update of a successful rho read: rand.Read fills
round.thisParty.rho (source line 136). -/
def round1.setRho (r : round1) (rho : List Byte) : round1 :=
  { r with thisParty := { r.thisParty with rho := rho } }

/-- The state update of a successful commitment (source lines 141-142):
round.thisParty.commitment and round.decommitment are stored. -/
def round1.setCommit (r : round1) (cd : List Byte × List Byte) : round1 :=
  { r with decommitment := cd.2
           thisParty := { r.thisParty with commitment := cd.1 } }

/-- The commit phase of GenerateMessages (source lines 140-155), entered once
the rho read succeeded: H.Commit either fails (error wrapped with the
source's prefix) or yields the commitment pair, in which case exactly one
reliable broadcast message carrying only the commitment hash is returned. -/
def round1.genCommitPhase (env : Env) (r : round1) (rho : List Byte) :
    Except String (List Message) × round1 :=
  match env.H.Commit r.SelfID rho (round1.polyExpOf env r) (round1.AOf env r)
      (env.generatePedersen env.paillierSK).1 with
  | Except.error e =>
      (Except.error ("refresh.round1.GenerateMessages(): commit: " ++ e),
        round1.setRho (round1.preState env r) rho)
  | Except.ok cd =>
      (Except.ok [{ type := MessageType.TypeRefresh1
                    From := r.SelfID
                    broadcast := Broadcast.Reliable
                    refresh1 := some { Hash := cd.1 } }],
        round1.setCommit (round1.setRho (round1.preState env r) rho) cd)

/-- GenerateMessages (refresh round 1, source lines 103-155): after the
pre-rho updates, the rho read either fails (error wrapped with the source's
prefix, nil message list) or succeeds, in which case the commit phase runs. -/
def round1.GenerateMessages (env : Env) (r : round1) :
    Except String (List Message) × round1 :=
  match env.rhoRead 0 with
  | Except.error e =>
      (Except.error ("refresh.round1.GenerateMessages(): sample rho: " ++ e),
        round1.preState env r)
  | Except.ok rho => round1.genCommitPhase env r rho

/-- round2, modelled from the spec (the round-2 source is not under src/):
Finalize constructs it as round2{round, nil}, embedding the whole round-1
state; the nil second field is a not-yet-filled accumulator of the next
round (spec 9: the next round's state embeds the fields it needs). -/
structure round2 where
  prev : round1
  received : Option Unit
  deriving DecidableEq

/-- Finalize (refresh round 1, source lines 158-160): returns
round2{round, nil} and a nil error. The first component is the list of
messages this call writes out: the source Finalize takes no outbound channel
and performs no send, so it is always empty — the round's broadcast is
produced by GenerateMessages instead. -/
def round1.Finalize (r : round1) : List Message × Option round2 × Option String :=
  ([], some { prev := r, received := none }, none)

/-- MessageType (refresh round 1, source lines 162-164). -/
def round1.MessageType (_ : round1) : MessageType := MessageType.TypeInvalid

end Refresh

/-- A localParty with every field at its Go zero value. -/
def emptyLocalParty : Refresh.localParty :=
  { A := [], Paillier := none, Pedersen := none, rho := [], polyExp := none,
    shareReceived := none, commitment := [] }

/-- A concrete Paillier secret key used by the concrete environments. -/
def sk0 : PaillierSecretKey := { p := 3, q := 5 }

/-- A concrete effect environment in which every sampling step succeeds. -/
def env0 : Env :=
  { scalarTape := fun _ => 0
    paillierSK := sk0
    generatePedersen := fun _ => ({ N := 15, S := 2, T := 4 }, 7)
    rhoRead := fun _ => Except.ok (List.replicate SecBytes 0)
    H := { Commit := fun _ _ _ _ _ => Except.ok ([1], [2]) } }

/-- A concrete environment whose first randomness read for rho fails while a
second read would succeed: a retry inside the call would not fail. -/
def env1 : Env :=
  { env0 with
    rhoRead := fun k =>
      if k = 0 then Except.error "entropy exhausted"
      else Except.ok (List.replicate SecBytes 0) }

/-- A concrete fresh DKG/refresh round-1 state: threshold 1, refresh mode,
no Paillier key stored in the session yet, party ID the single byte 65. -/
def r0 : Refresh.round1 :=
  { S := { Threshold := 1, Secret := { Paillier := none } }
    SelfID := [65]
    keygen := false
    thisParty := emptyLocalParty
    parties := []
    decommitment := []
    lambda := none
    poly := none
    schnorrRand := [] }

/-- The single broadcast message GenerateMessages produces at env0 and r0. -/
def msg0 : Message :=
  { type := MessageType.TypeRefresh1, From := [65], broadcast := Broadcast.Reliable,
    refresh1 := some { Hash := [1] } }

/-- The state returned by the commit phase agrees, outside the rho,
commitment and decommitment fields, with the pre-rho state: its session,
polynomial, Schnorr data and self-share are those of preState. -/
theorem genCommitPhase_snd_frame (env : Env) (r : Refresh.round1) (rho : List Byte) :
    ((Refresh.round1.genCommitPhase env r rho).2.S = (Refresh.round1.preState env r).S) ∧
    ((Refresh.round1.genCommitPhase env r rho).2.poly = (Refresh.round1.preState env r).poly) ∧
    ((Refresh.round1.genCommitPhase env r rho).2.schnorrRand =
      (Refresh.round1.preState env r).schnorrRand) ∧
    ((Refresh.round1.genCommitPhase env r rho).2.thisParty.A =
      (Refresh.round1.preState env r).thisParty.A) ∧
    ((Refresh.round1.genCommitPhase env r rho).2.thisParty.shareReceived =
      (Refresh.round1.preState env r).thisParty.shareReceived) := by
  unfold Refresh.round1.genCommitPhase
  cases env.H.Commit r.SelfID rho (Refresh.round1.polyExpOf env r)
      (Refresh.round1.AOf env r) (env.generatePedersen env.paillierSK).1 with
  | error e => exact ⟨rfl, rfl, rfl, rfl, rfl⟩
  | ok cd => exact ⟨rfl, rfl, rfl, rfl, rfl⟩

/-- The state returned by GenerateMessages agrees with the pre-rho state on
the session, polynomial, Schnorr data and self-share, in every branch. -/
theorem gen_snd_frame (env : Env) (r : Refresh.round1) :
    ((Refresh.round1.GenerateMessages env r).2.S = (Refresh.round1.preState env r).S) ∧
    ((Refresh.round1.GenerateMessages env r).2.poly = (Refresh.round1.preState env r).poly) ∧
    ((Refresh.round1.GenerateMessages env r).2.schnorrRand =
      (Refresh.round1.preState env r).schnorrRand) ∧
    ((Refresh.round1.GenerateMessages env r).2.thisParty.A =
      (Refresh.round1.preState env r).thisParty.A) ∧
    ((Refresh.round1.GenerateMessages env r).2.thisParty.shareReceived =
      (Refresh.round1.preState env r).thisParty.shareReceived) := by
  unfold Refresh.round1.GenerateMessages
  cases env.rhoRead 0 with
  | error e => exact ⟨rfl, rfl, rfl, rfl, rfl⟩
  | ok rho => exact genCommitPhase_snd_frame env r rho

/-- The session of the state returned by GenerateMessages, in every branch:
the threshold is kept and the fresh Paillier secret key is stored in
S.Secret.Paillier. -/
theorem gen_snd_S (env : Env) (r : Refresh.round1) :
    (Refresh.round1.GenerateMessages env r).2.S =
      { r.S with Secret := { r.S.Secret with Paillier := some env.paillierSK } } :=
  (gen_snd_frame env r).1

/-- The polynomial of the state returned by GenerateMessages, in every
branch. -/
theorem gen_snd_poly (env : Env) (r : Refresh.round1) :
    (Refresh.round1.GenerateMessages env r).2.poly =
      some (Refresh.round1.polyOf env r) :=
  (gen_snd_frame env r).2.1

/-- The Schnorr randomness of the state returned by GenerateMessages, in
every branch. -/
theorem gen_snd_schnorrRand (env : Env) (r : Refresh.round1) :
    (Refresh.round1.GenerateMessages env r).2.schnorrRand =
      Refresh.round1.schnorrRandOf env r :=
  (gen_snd_frame env r).2.2.1

/-- The Schnorr commitment points of the state returned by GenerateMessages,
in every branch. -/
theorem gen_snd_A (env : Env) (r : Refresh.round1) :
    (Refresh.round1.GenerateMessages env r).2.thisParty.A =
      Refresh.round1.AOf env r :=
  (gen_snd_frame env r).2.2.2.1

/-- The retained self-share of the state returned by GenerateMessages, in
every branch: the polynomial evaluated at the scalar decoded from SelfID. -/
theorem gen_snd_share (env : Env) (r : Refresh.round1) :
    (Refresh.round1.GenerateMessages env r).2.thisParty.shareReceived =
      some ((Refresh.round1.polyOf env r).Evaluate
        (Scalar.SetBytes NewScalar r.SelfID)) :=
  (gen_snd_frame env r).2.2.2.2

/-- Shape of every successful commit phase result: a single reliable
broadcast from the party itself, tagged TypeRefresh1, whose payload is
exactly the stored commitment hash. -/
theorem genCommitPhase_fst_ok (env : Env) (r : Refresh.round1) (rho : List Byte)
    (msgs : List Message)
    (h : (Refresh.round1.genCommitPhase env r rho).1 = Except.ok msgs) :
    msgs = [{ type := MessageType.TypeRefresh1, From := r.SelfID,
              broadcast := Broadcast.Reliable,
              refresh1 := some { Hash :=
                (Refresh.round1.genCommitPhase env r rho).2.thisParty.commitment } }] := by
  unfold Refresh.round1.genCommitPhase at h ⊢
  revert h
  cases env.H.Commit r.SelfID rho (Refresh.round1.polyExpOf env r)
      (Refresh.round1.AOf env r) (env.generatePedersen env.paillierSK).1 with
  | error e =>
      intro h
      simp at h
  | ok cd =>
      intro h
      injection h with h2
      rw [← h2]
      rfl

/-- Shape of every successful GenerateMessages result: a single reliable
broadcast from the party itself, tagged TypeRefresh1, whose payload is
exactly the stored commitment hash. -/
theorem gen_fst_ok (env : Env) (r : Refresh.round1) (msgs : List Message)
    (h : (Refresh.round1.GenerateMessages env r).1 = Except.ok msgs) :
    msgs = [{ type := MessageType.TypeRefresh1, From := r.SelfID,
              broadcast := Broadcast.Reliable,
              refresh1 := some { Hash :=
                (Refresh.round1.GenerateMessages env r).2.thisParty.commitment } }] := by
  unfold Refresh.round1.GenerateMessages at h ⊢
  revert h
  cases env.rhoRead 0 with
  | error e =>
      intro h
      simp at h
  | ok rho =>
      intro h
      exact genCommitPhase_fst_ok env r rho msgs h

/-- Indexing a base-point-multiplied list: the l-th commitment point of the
mapped list is the base-point multiple of the l-th scalar, for l in range. -/
theorem getD_map_scalarBaseMult (xs : List Scalar) (l : Nat) (hl : l < xs.length) :
    (xs.map (fun a => Point.ScalarBaseMult NewIdentityPoint a)).getD l NewIdentityPoint =
      Point.ScalarBaseMult NewIdentityPoint (xs.getD l 0) := by
  induction xs generalizing l with
  | nil => exact absurd hl (Nat.not_lt_zero l)
  | cons x xs ih =>
      cases l with
      | zero => rfl
      | succ n => exact ih n (Nat.lt_of_succ_lt_succ hl)

/-- Claim C1 (code bug): for every signing round-1 state, instead of sampling
two ephemeral nonces, broadcasting their base-point commitments and returning
the next round, Finalize panics with the message "unimplemented": no message
is written and no next round is produced. -/
theorem claim1_sign_finalize_panics (r : Sign.round1) :
    Sign.round1.Finalize r = PanicOr.panicked "unimplemented" := rfl

/-- Claim C2 counterexample: GenerateMessages mutates the session context. At
the concrete round-1 state r0, whose session holds no Paillier key, the call
stores the freshly generated Paillier secret key in S.Secret.Paillier. -/
theorem claim2_counterexample :
    r0.S.Secret.Paillier = none ∧
    (Refresh.round1.GenerateMessages env0 r0).2.S.Secret.Paillier = some sk0 ∧
    some sk0 ≠ (none : Option PaillierSecretKey) := by
  refine ⟨rfl, ?_, by simp⟩
  rw [gen_snd_S]
  rfl

/-- Claim C2 (amended): ProcessMessage and Finalize leave the session context
unchanged, and GenerateMessages leaves every referenced session field
unchanged except S.Secret.Paillier, into which it stores the freshly
generated Paillier secret key. -/
theorem claim2_session_frame (env : Env) (r : Refresh.round1) (m : Option Message) :
    (Refresh.round1.ProcessMessage r m).2.S = r.S ∧
    (∃ r2, (Refresh.round1.Finalize r).2.1 = some r2 ∧ r2.prev.S = r.S) ∧
    (Refresh.round1.GenerateMessages env r).2.S.Threshold = r.S.Threshold ∧
    (Refresh.round1.GenerateMessages env r).2.S.Secret.Paillier = some env.paillierSK := by
  refine ⟨rfl, ⟨{ prev := r, received := none }, rfl, rfl⟩, ?_, ?_⟩ <;>
    rw [gen_snd_S]

/-- Claim C3: the sampled polynomial has degree t (t+1 coefficients for the
session threshold t), and its constant term is the fresh scalar drawn right
after the Schnorr draws when the round is in key-generation mode, and the
zero scalar when the round is in refresh mode. -/
theorem claim3_poly_degree_and_mode (env : Env) (r : Refresh.round1) :
    ∃ p, (Refresh.round1.GenerateMessages env r).2.poly = some p ∧
      p.coefficients.length = r.S.Threshold + 1 ∧
      p.coefficients.head? =
        some (if r.keygen then env.scalarTape (r.S.Threshold + 1) else 0) := by
  refine ⟨Refresh.round1.polyOf env r, gen_snd_poly env r, ?_, rfl⟩
  simp [Refresh.round1.polyOf, NewPolynomial]

/-- Claim C4: every successful GenerateMessages returns exactly one message,
tagged TypeRefresh1, with the party's own ID as sender, the Reliable
broadcast class, and a payload that holds only the commitment hash. -/
theorem claim4_single_commitment_message (env : Env) (r : Refresh.round1)
    (msgs : List Message)
    (h : (Refresh.round1.GenerateMessages env r).1 = Except.ok msgs) :
    msgs = [{ type := MessageType.TypeRefresh1, From := r.SelfID,
              broadcast := Broadcast.Reliable,
              refresh1 := some { Hash :=
                (Refresh.round1.GenerateMessages env r).2.thisParty.commitment } }] :=
  gen_fst_ok env r msgs h

/-- Witness for claim C4 at the concrete environment env0 and state r0. -/
theorem claim4_witness :
    (Refresh.round1.GenerateMessages env0 r0).1 = Except.ok [msg0] ∧
    [msg0] = [{ type := MessageType.TypeRefresh1, From := r0.SelfID,
                broadcast := Broadcast.Reliable,
                refresh1 := some { Hash :=
                  (Refresh.round1.GenerateMessages env0 r0).2.thisParty.commitment } }] :=
  ⟨rfl, claim4_single_commitment_message env0 r0 [msg0] rfl⟩

/-- Claim C5: on both round-1 states, ProcessMessage accepts every sender
identity and every payload, including the nil one, returns nil, and leaves
the round state unchanged. -/
theorem claim5_processMessage_noop (rs : Sign.round1) (pid : PartyID)
    (c : Option Sign.Content) (rr : Refresh.round1) (m : Option Message) :
    Sign.round1.ProcessMessage rs pid c = (none, rs) ∧
    Refresh.round1.ProcessMessage rr m = (none, rr) :=
  ⟨rfl, rfl⟩

/-- Claim C6: if the randomness read for rho fails, GenerateMessages returns
no messages, only an error wrapping the randomness failure; the outcome is
decided by the first read alone, whatever later reads would return, so the
sampling is not retried within the call. -/
theorem claim6_rho_failure (env : Env) (r : Refresh.round1) (e : String)
    (h : env.rhoRead 0 = Except.error e) :
    (Refresh.round1.GenerateMessages env r).1 =
      Except.error ("refresh.round1.GenerateMessages(): sample rho: " ++ e) := by
  unfold Refresh.round1.GenerateMessages
  rw [h]

/-- Witness for claim C6 at env1, whose first rho read fails while its second
read would succeed: the call still fails with the wrapped error. -/
theorem claim6_witness :
    env1.rhoRead 0 = Except.error "entropy exhausted" ∧
    env1.rhoRead 1 = Except.ok (List.replicate SecBytes 0) ∧
    (Refresh.round1.GenerateMessages env1 r0).1 =
      Except.error ("refresh.round1.GenerateMessages(): sample rho: " ++
        "entropy exhausted") :=
  ⟨rfl, rfl, claim6_rho_failure env1 r0 "entropy exhausted" rfl⟩

/-- Claim C7: GenerateMessages samples exactly t+1 Schnorr scalars — the
successive tape draws 0..t — and stores exactly t+1 points in the same
order, the l-th point being the l-th scalar times the base point. -/
theorem claim7_schnorr_sampling (env : Env) (r : Refresh.round1) :
    (Refresh.round1.GenerateMessages env r).2.schnorrRand =
      (List.range (r.S.Threshold + 1)).map env.scalarTape ∧
    (Refresh.round1.GenerateMessages env r).2.schnorrRand.length = r.S.Threshold + 1 ∧
    (Refresh.round1.GenerateMessages env r).2.thisParty.A.length = r.S.Threshold + 1 ∧
    ∀ l, l < r.S.Threshold + 1 →
      (Refresh.round1.GenerateMessages env r).2.thisParty.A.getD l NewIdentityPoint =
        Point.ScalarBaseMult NewIdentityPoint
          ((Refresh.round1.GenerateMessages env r).2.schnorrRand.getD l 0) := by
  refine ⟨gen_snd_schnorrRand env r, ?_, ?_, ?_⟩
  · rw [gen_snd_schnorrRand]
    simp [Refresh.round1.schnorrRandOf]
  · rw [gen_snd_A]
    simp [Refresh.round1.AOf, Refresh.round1.schnorrRandOf]
  · intro l hl
    rw [gen_snd_A, gen_snd_schnorrRand]
    refine getD_map_scalarBaseMult (Refresh.round1.schnorrRandOf env r) l ?_
    simpa [Refresh.round1.schnorrRandOf] using hl

/-- Witness for claim C7 at env0 and r0 (threshold 1) and index 0. -/
theorem claim7_witness :
    (Refresh.round1.GenerateMessages env0 r0).2.schnorrRand.length =
      r0.S.Threshold + 1 ∧
    0 < r0.S.Threshold + 1 ∧
    (Refresh.round1.GenerateMessages env0 r0).2.thisParty.A.getD 0 NewIdentityPoint =
      Point.ScalarBaseMult NewIdentityPoint
        ((Refresh.round1.GenerateMessages env0 r0).2.schnorrRand.getD 0 0) :=
  ⟨(claim7_schnorr_sampling env0 r0).2.1, Nat.succ_pos _,
    (claim7_schnorr_sampling env0 r0).2.2.2 0 (Nat.succ_pos _)⟩

/-- Claim C8: GenerateMessages evaluates the sampled polynomial at the scalar
obtained deterministically from the byte encoding of the party's own ID and
retains the result privately as shareReceived; the emitted message's payload
consists of the commitment hash only, so the self-share is not included. -/
theorem claim8_self_share (env : Env) (r : Refresh.round1) :
    (∃ p, (Refresh.round1.GenerateMessages env r).2.poly = some p ∧
      (Refresh.round1.GenerateMessages env r).2.thisParty.shareReceived =
        some (p.Evaluate (Scalar.SetBytes NewScalar r.SelfID))) ∧
    ∀ msgs, (Refresh.round1.GenerateMessages env r).1 = Except.ok msgs →
      ∀ m ∈ msgs, m.refresh1 =
        some { Hash := (Refresh.round1.GenerateMessages env r).2.thisParty.commitment } := by
  refine ⟨⟨Refresh.round1.polyOf env r, gen_snd_poly env r, gen_snd_share env r⟩, ?_⟩
  intro msgs h m hm
  rw [gen_fst_ok env r msgs h] at hm
  simp only [List.mem_singleton] at hm
  rw [hm]

/-- Witness for claim C8 at env0 and r0. -/
theorem claim8_witness :
    (Refresh.round1.GenerateMessages env0 r0).1 = Except.ok [msg0] ∧
    msg0 ∈ [msg0] ∧
    msg0.refresh1 =
      some { Hash := (Refresh.round1.GenerateMessages env0 r0).2.thisParty.commitment } :=
  ⟨rfl, List.mem_singleton_self msg0,
    (claim8_self_share env0 r0).2 [msg0] rfl msg0 (List.mem_singleton_self msg0)⟩

/-- Claim C9 counterexample: at the concrete state r0 the refresh round-1
Finalize writes no message at all, while this round's outgoing broadcast
(produced by GenerateMessages) is a nonempty list — so Finalize does not
compute and write the round's broadcasts to the outbound channel. -/
theorem claim9_counterexample :
    (Refresh.round1.Finalize r0).1 = ([] : List Message) ∧
    (Refresh.round1.GenerateMessages env0 r0).1 = Except.ok [msg0] ∧
    ([] : List Message) ≠ [msg0] :=
  ⟨rfl, rfl, by simp⟩

/-- Claim C9 (amended): Finalize returns the round-2 state embedding the
whole round-1 state — decommitment, lambda, polynomial, Schnorr randomness
and the per-party map all transfer — together with a nil error; it writes no
message itself, the round's broadcast being produced by GenerateMessages. -/
theorem claim9_finalize_state_transfer (r : Refresh.round1) :
    (Refresh.round1.Finalize r).1 = [] ∧
    (Refresh.round1.Finalize r).2.2 = none ∧
    ∃ r2, (Refresh.round1.Finalize r).2.1 = some r2 ∧ r2.prev = r ∧
      r2.prev.decommitment = r.decommitment ∧ r2.prev.lambda = r.lambda ∧
      r2.prev.poly = r.poly ∧ r2.prev.schnorrRand = r.schnorrRand ∧
      r2.prev.parties = r.parties :=
  ⟨rfl, rfl, ⟨{ prev := r, received := none }, rfl, rfl, rfl, rfl, rfl, rfl, rfl⟩⟩

/-- Claim C10: the refresh round-1 MessageType is the invalid type constant,
and every message the round-1 protocol emits carries a different tag, so no
inbound round-1 message's type tag can match this round's declared
expectation. -/
theorem claim10_messageType_invalid (r : Refresh.round1) :
    Refresh.round1.MessageType r = MessageType.TypeInvalid ∧
    ∀ (env : Env) (r2 : Refresh.round1) (msgs : List Message),
      (Refresh.round1.GenerateMessages env r2).1 = Except.ok msgs →
      ∀ m ∈ msgs, m.type ≠ Refresh.round1.MessageType r := by
  refine ⟨rfl, ?_⟩
  intro env r2 msgs h m hm
  rw [gen_fst_ok env r2 msgs h] at hm
  simp only [List.mem_singleton] at hm
  rw [hm]
  simp [Refresh.round1.MessageType]

/-- Witness for claim C10 at env0 and r0. -/
theorem claim10_witness :
    Refresh.round1.MessageType r0 = MessageType.TypeInvalid ∧
    (Refresh.round1.GenerateMessages env0 r0).1 = Except.ok [msg0] ∧
    msg0.type ≠ Refresh.round1.MessageType r0 :=
  ⟨(claim10_messageType_invalid r0).1, rfl,
    (claim10_messageType_invalid r0).2 env0 r0 [msg0] rfl msg0
      (List.mem_singleton_self msg0)⟩

end MPS
